import Mathlib

/-!
Shallow embedding of `env.go` (package `env`, repository jayacarlson/env),
a process-startup environment-variable binder.

The binder (`ReadEnvVars` / `getEnvVal`) walks the fields of a record and,
for each field, reads the environment variable named by the upper-cased
field name; a non-empty value is converted according to the field kind
(`string`, `int`, `[]string`), and every other kind is a fatal panic.
The snapshot initializer (`getEnv`) binds `HOST`/`USER`, falls back to
`runtime.GOOS` and `USERNAME`, and computes the list separator.

Go-side machine behaviour is made explicit: `os.Getenv` returns the empty
string for an unset variable, `strconv.Atoi` parses an optional sign plus
base-10 digits into a 64-bit platform `int`, `reflect.Value.Set` panics on
a value obtained from an unexported struct field, and a Go panic aborts the
whole binding, which the `Outcome` type records.
-/

namespace EnvGo

/-- The process environment block as an association list of
variable-name/value pairs. -/
abbrev Env := List (String × String)

/-- `os.Getenv`: the value of the variable, or the empty string when the
variable is unset (Go does not distinguish unset from empty here, and
`getEnvVal` only ever tests `len(envVal) > 0`). -/
def getenv (ev : Env) (k : String) : String :=
  (List.lookup k ev).getD ""

/-- The reflect type of a record field, restricted to what the switch in
`getEnvVal` distinguishes: the `reflect.Kind` cases `String`, `Int` and
`Slice`, with the slice element type kept so that the inner comparison
against `reflect.TypeOf([]string(nil))` can be expressed, and the other
kinds that all fall to the `default` branches. -/
inductive GoType
  | string
  | int
  | int8
  | int16
  | int32
  | int64
  | uint
  | uint8
  | uint16
  | uint32
  | uint64
  | bool
  | float32
  | float64
  | slice (elem : GoType)
  | struct
  | map
deriving DecidableEq

/-- The kinds the binder converts: `string`, `int` and `[]string`.
Everything else reaches a fatal `default` branch when a non-empty
variable is present. -/
def GoType.isSupported : GoType → Bool
  | GoType.string => true
  | GoType.int => true
  | GoType.slice GoType.string => true
  | _ => false

/-- A runtime value stored in a record field.  The binder never reads a
field value (it only overwrites), so values of unsupported types are
collapsed into `other`. -/
inductive GoValue
  | str (s : String)
  | int (n : Int)
  | strs (xs : List String)
  | other
deriving DecidableEq

/-- One field of a caller-supplied record: its declared name, its reflect
type and its current value. -/
structure GoField where
  name : String
  type : GoType
  val : GoValue
deriving DecidableEq

/-- Exportedness rule of Go: an identifier is exported iff its first
character is an upper-case letter.  (ASCII suffices for the names the
claims mention.) -/
def isExported (name : String) : Bool := name.front.isUpper

/-- `strings.ToUpper`: upper-case every character (character-wise, so it
is kernel-computable on concrete names). -/
def goToUpper (s : String) : String := String.mk (s.data.map Char.toUpper)

/-- Result of running code that may panic: either a value or a Go panic
carrying its message.  A panic aborts the whole binding. -/
inductive Outcome (α : Type)
  | ok (a : α)
  | panic (msg : String)
deriving DecidableEq

/-- Digit accumulator of `strconv.ParseUint` at base 10: `none` at the
first character that is not a decimal digit. -/
def digitsVal : List Char → Nat → Option Nat
  | [], acc => some acc
  | c :: cs, acc =>
      if c.isDigit then digitsVal cs (10 * acc + (c.toNat - 48)) else none

/-- Digit part of `strconv.Atoi`: at least one base-10 digit, then the
sign is applied and the result must fit the 64-bit platform `int`
(`strconv.IntSize = 64`); anything else errors, here `none`. -/
def atoiDigits (neg : Bool) (ds : List Char) : Option Int :=
  if ds.isEmpty then none
  else
    match digitsVal ds 0 with
    | none => none
    | some n =>
        let v : Int := if neg then -(n : Int) else (n : Int)
        if -(2 ^ 63) ≤ v ∧ v ≤ 2 ^ 63 - 1 then some v else none

/-- `strconv.Atoi` (= `ParseInt(s, 10, 0)`): an optional `+`/`-` sign
followed by at least one base-10 digit, with a 64-bit range check. -/
def atoi (s : String) : Option Int :=
  match s.data with
  | '-' :: rest => atoiDigits true rest
  | '+' :: rest => atoiDigits false rest
  | cs => atoiDigits false cs

/-- Splitting a character list around each occurrence of the character
`c`; the result always has one more part than there are occurrences, so
an empty input gives one empty part and no empty run is ever dropped. -/
def splitChar (c : Char) : List Char → List (List Char)
  | [] => [[]]
  | x :: xs =>
      match splitChar c xs with
      | [] => [[]]
      | h :: t => if x = c then [] :: h :: t else (x :: h) :: t

/-- `strings.Split(s, sep)`: split `s` around each instance of `sep`,
keeping empty substrings.  In this program `sep` is always the
single-character `envSep` (":" or ";"), so only that shape is given a
meaning; other separators do not occur and are modelled as no split. -/
def goSplit (s : String) (sep : String) : List String :=
  match sep.data with
  | [c] => (splitChar c s.data).map String.mk
  | _ => [s]

/-- `reflect.Value.Set` on a field of the bound record: stores the new
value for an exported field and panics on a value obtained from an
unexported struct field. -/
def setField (fld : GoField) (v : GoValue) : Outcome GoValue :=
  if isExported fld.name then Outcome.ok v
  else Outcome.panic "reflect: reflect.Value.Set using value obtained using unexported field"

/-- `getEnvVal` from env.go: read the variable `envname`; when its value
is non-empty, switch on the field kind — `String` assigns the raw value,
`Int` goes through `Atoi` and panics on conversion error, `Slice` splits
on the separator when the type is exactly `[]string` and panics
(`Unexpected type`) otherwise, and every other kind panics
(`Unexpected kind`).  An empty or absent variable leaves the field value
untouched.  The separator global `envSep` is passed explicitly. -/
def getEnvVal (sep : String) (ev : Env) (envname : String) (fld : GoField) : Outcome GoValue :=
  let envVal := getenv ev envname
  if envVal.length > 0 then
    match fld.type with
    | GoType.string => setField fld (GoValue.str envVal)
    | GoType.int =>
        match atoi envVal with
        | none => Outcome.panic "ReadEnvVars: Illegal atoi conversion"
        | some v => setField fld (GoValue.int v)
    | GoType.slice elem =>
        if elem = GoType.string then
          setField fld (GoValue.strs (goSplit envVal sep))
        else
          Outcome.panic "ReadEnvVars: Unexpected type"
    | _ => Outcome.panic "ReadEnvVars: Unexpected kind"
  else
    Outcome.ok fld.val

/-- `ReadEnvVars` from env.go: for every field of the record, in
declaration order, bind through `getEnvVal` under the upper-cased field
name (`strings.ToUpper(t.Field(i).Name)`).  The loop has no exportedness
test: every field is visited.  A panic aborts the binding. -/
def ReadEnvVars (sep : String) (ev : Env) : List GoField → Outcome (List GoField)
  | [] => Outcome.ok []
  | f :: fs =>
      match getEnvVal sep ev (goToUpper f.name) f with
      | Outcome.panic m => Outcome.panic m
      | Outcome.ok v =>
          match ReadEnvVars sep ev fs with
          | Outcome.panic m => Outcome.panic m
          | Outcome.ok rest => Outcome.ok ({ f with val := v } :: rest)

/-- The package-level `env` snapshot record with its two exported string
fields `Host` and `User`. -/
structure EnvRec where
  Host : String
  User : String
deriving DecidableEq

/-- The effect of `getEnvVal` on one exported string field: assign the
variable value when non-empty, otherwise keep the current value.  The
lemma `getEnvVal_exported_string` below proves this is exactly what
`getEnvVal` does on such a field. -/
def bindString (ev : Env) (key : String) (cur : String) : String :=
  let v := getenv ev key
  if v.length > 0 then v else cur

/-- `getEnv` from env.go, with `runtime.GOOS` passed in as `goos`.
`ReadEnvVars(&env)` binds `HOST` and `USER` into the two exported string
fields (spelled out through `bindString`, justified by
`ReadEnvVars_snapshot` below); an empty `Host` falls back to
`runtime.GOOS`; an empty `User` is re-bound from `USERNAME`; the
separator is ":" unless `env.IsWindows()` (that is, `env.Host` equals
"windows") holds, in which case ";".  Returns the separator `envSep`
together with the snapshot. -/
def getEnv (goos : String) (ev : Env) : String × EnvRec :=
  let sep := ":"
  let host0 := bindString ev "HOST" ""
  let user0 := bindString ev "USER" ""
  let host1 := if host0 = "" then goos else host0
  let user1 := if user0 = "" then bindString ev "USERNAME" user0 else user0
  let sep1 := if host1 = "windows" then ";" else sep
  (sep1, ⟨host1, user1⟩)

/-- Accessor `Host()`: the snapshot host family string. -/
def Host (e : EnvRec) : String := e.Host

/-- Accessor `User()`: the snapshot user name string. -/
def User (e : EnvRec) : String := e.User

/-- Accessor `IsLinux()`: whether the snapshot host equals "linux". -/
def IsLinux (e : EnvRec) : Bool := e.Host == "linux"

/-- Accessor `IsWindows()`: whether the snapshot host equals "windows". -/
def IsWindows (e : EnvRec) : Bool := e.Host == "windows"

/-! ### Supporting lemmas -/

/-- A non-empty string has positive length. -/
theorem length_pos_of_ne_empty (s : String) (h : s ≠ "") : 0 < s.length := by
  cases s with
  | mk l =>
    cases l with
    | nil => exact absurd rfl h
    | cons c cs => simp [String.length]

/-- An absent or empty variable leaves any field untouched: the whole
body of `getEnvVal` sits under `len(envVal) > 0`. -/
theorem getEnvVal_empty (sep : String) (ev : Env) (name : String) (f : GoField)
    (h : getenv ev name = "") :
    getEnvVal sep ev name f = Outcome.ok f.val := by
  unfold getEnvVal
  simp [h]

/-- On an exported string field, `getEnvVal` is `bindString` and never
panics. -/
theorem getEnvVal_exported_string (sep : String) (ev : Env) (key n cur : String)
    (h : isExported n = true) :
    getEnvVal sep ev key ⟨n, GoType.string, GoValue.str cur⟩
      = Outcome.ok (GoValue.str (bindString ev key cur)) := by
  unfold getEnvVal bindString setField
  by_cases hc : 0 < (getenv ev key).length <;> simp [hc, h]

/-- `ReadEnvVars(&env)` on the snapshot record binds `HOST` into `Host`
and `USER` into `User` through `bindString`, with no panic: both fields
are exported strings.  This justifies the `bindString` calls inside
`getEnv`. -/
theorem ReadEnvVars_snapshot (sep : String) (ev : Env) (h u : String) :
    ReadEnvVars sep ev
        [⟨"Host", GoType.string, GoValue.str h⟩, ⟨"User", GoType.string, GoValue.str u⟩]
      = Outcome.ok
        [⟨"Host", GoType.string, GoValue.str (bindString ev "HOST" h)⟩,
         ⟨"User", GoType.string, GoValue.str (bindString ev "USER" u)⟩] := by
  have hh : goToUpper "Host" = "HOST" := rfl
  have hu : goToUpper "User" = "USER" := rfl
  simp [ReadEnvVars, hh, hu,
    getEnvVal_exported_string sep ev "HOST" "Host" h (by decide),
    getEnvVal_exported_string sep ev "USER" "User" u (by decide)]

/-- A field whose type is unsupported panics in `getEnvVal` whenever its
variable is non-empty: all such kinds reach a `default` branch. -/
theorem getEnvVal_unsupported_fatal (sep : String) (ev : Env) (key : String) (f : GoField)
    (ht : f.type.isSupported = false) (hne : getenv ev key ≠ "") :
    ∃ msg, getEnvVal sep ev key f = Outcome.panic msg := by
  have hlen : 0 < (getenv ev key).length := length_pos_of_ne_empty _ hne
  cases f with
  | mk n t v =>
    unfold getEnvVal
    cases t
    case string => simp [GoType.isSupported] at ht
    case int => simp [GoType.isSupported] at ht
    case slice elem => cases elem <;> simp_all [GoType.isSupported]
    all_goals exact ⟨"ReadEnvVars: Unexpected kind", by simp [hlen]⟩

/-! ### Claims -/

/-- Claim C1, code bug.  The claim (and the usage comment in env.go,
which promises that non-capitalized names are private and are not
touched) says a field that is not publicly visible is skipped entirely,
never inspected and never written.  The loop in `ReadEnvVars` has no
exportedness test: with a record holding the single unexported string
field `foo` and the variable `FOO` set to "x", the binder reaches
`reflect.Value.Set` on the unexported field and panics instead of
skipping it. -/
theorem c1_unexported_field_not_skipped :
    ReadEnvVars ":" [("FOO", "x")] [⟨"foo", GoType.string, GoValue.str ""⟩]
      = Outcome.panic "reflect: reflect.Value.Set using value obtained using unexported field" := by
  rfl

/-- In any binding that completes, a field whose matching variable is
absent or empty comes out exactly as it went in, at its position — the
other fields of the record may be bound freely. -/
theorem ReadEnvVars_preserves_empty (sep : String) (ev : Env) (fs : List GoField) :
    ∀ fs2, ReadEnvVars sep ev fs = Outcome.ok fs2 →
      ∀ i f, fs.get? i = some f → getenv ev (goToUpper f.name) = "" →
        fs2.get? i = some f := by
  induction fs with
  | nil =>
      intro fs2 hok i f hget
      simp at hget
  | cons g gs ih =>
      intro fs2 hok i f hget hempty
      simp only [ReadEnvVars] at hok
      cases hcall : getEnvVal sep ev (goToUpper g.name) g with
      | panic m => simp [hcall] at hok
      | ok v =>
          simp only [hcall] at hok
          cases hrec : ReadEnvVars sep ev gs with
          | panic m => simp [hrec] at hok
          | ok rest =>
              simp only [hrec] at hok
              injection hok with hok2
              subst hok2
              cases i with
              | zero =>
                  simp at hget
                  subst hget
                  have hv := getEnvVal_empty sep ev (goToUpper g.name) g hempty
                  rw [hcall] at hv
                  injection hv with hv2
                  subst hv2
                  simp
              | succ n =>
                  simp only [List.get?_cons_succ] at hget ⊢
                  exact ih rest hrec n f hget hempty

/-- When the matching variable of every field is absent or empty,
binding completes and returns the record unchanged. -/
theorem ReadEnvVars_all_empty (sep : String) (ev : Env) (fs : List GoField)
    (h : ∀ f ∈ fs, getenv ev (goToUpper f.name) = "") :
    ReadEnvVars sep ev fs = Outcome.ok fs := by
  induction fs with
  | nil => rfl
  | cons f fs ih =>
      have hf : getenv ev (goToUpper f.name) = "" := h f (by simp)
      have hrest : ReadEnvVars sep ev fs = Outcome.ok fs :=
        ih (fun g hg => h g (by simp [hg]))
      simp [ReadEnvVars, getEnvVal_empty sep ev (goToUpper f.name) f hf, hrest]

/-- Claim C2: for every record and every field, if the variable named by
the upper-cased field name is absent or empty then binding leaves that
field at its caller-supplied value — also in records whose other fields
do get bound (first clause, over any completed binding); and in
particular a record none of whose fields have a corresponding variable
is returned with no field mutated at all (second clause). -/
theorem c2_absent_vars_leave_defaults (sep : String) (ev : Env) (fs fs2 : List GoField) :
    (ReadEnvVars sep ev fs = Outcome.ok fs2 →
      ∀ i f, fs.get? i = some f → getenv ev (goToUpper f.name) = "" →
        fs2.get? i = some f) ∧
    ((∀ f ∈ fs, getenv ev (goToUpper f.name) = "") →
      ReadEnvVars sep ev fs = Outcome.ok fs) :=
  ⟨fun hok i f hget hempty =>
      ReadEnvVars_preserves_empty sep ev fs fs2 hok i f hget hempty,
   fun h => ReadEnvVars_all_empty sep ev fs h⟩

/-- Claim C2 witness.  First clause: in a two-field record where `FOO`
is set (and `Foo` is bound to "hello"), the field `Bar`, whose variable
`BAR` is absent, keeps its caller-supplied value 7.  Second clause: a
record whose only field has no corresponding variable comes back
unchanged. -/
theorem c2_witness :
    (([⟨"Foo", GoType.string, GoValue.str "hello"⟩,
       ⟨"Bar", GoType.int, GoValue.int 7⟩] : List GoField).get? 1
        = some ⟨"Bar", GoType.int, GoValue.int 7⟩) ∧
    ReadEnvVars ":" [("FOO", "hello")] [⟨"Bar", GoType.int, GoValue.int 7⟩]
      = Outcome.ok [⟨"Bar", GoType.int, GoValue.int 7⟩] :=
  ⟨(c2_absent_vars_leave_defaults ":" [("FOO", "hello")]
      [⟨"Foo", GoType.string, GoValue.str "d"⟩, ⟨"Bar", GoType.int, GoValue.int 7⟩]
      [⟨"Foo", GoType.string, GoValue.str "hello"⟩, ⟨"Bar", GoType.int, GoValue.int 7⟩]).1
      (by decide) 1 ⟨"Bar", GoType.int, GoValue.int 7⟩ (by decide) (by decide),
   (c2_absent_vars_leave_defaults ":" [("FOO", "hello")]
      [⟨"Bar", GoType.int, GoValue.int 7⟩] []).2 (by decide)⟩

/-- Claim C3: an exported `int` field whose variable is set non-empty is
parsed by `strconv.Atoi` as a base-10 signed integer; on success the
parsed value is assigned, and on conversion failure binding panics, with
no fallback. -/
theorem c3_int_parse_or_fatal (sep : String) (ev : Env) (key fname : String) (cur : GoValue)
    (hexp : isExported fname = true) (hne : getenv ev key ≠ "") :
    (∀ v : Int, atoi (getenv ev key) = some v →
        getEnvVal sep ev key ⟨fname, GoType.int, cur⟩ = Outcome.ok (GoValue.int v)) ∧
    (atoi (getenv ev key) = none →
        getEnvVal sep ev key ⟨fname, GoType.int, cur⟩
          = Outcome.panic "ReadEnvVars: Illegal atoi conversion") := by
  have hlen : 0 < (getenv ev key).length := length_pos_of_ne_empty _ hne
  constructor
  · intro v hv
    unfold getEnvVal setField
    simp [hlen, hv, hexp]
  · intro hv
    unfold getEnvVal
    simp [hlen, hv]

/-- Claim C3 witness: with `BAR=42`, an exported int field `Bar` becomes
42. -/
theorem c3_witness :
    getEnvVal ":" [("BAR", "42")] "BAR" ⟨"Bar", GoType.int, GoValue.int 0⟩
      = Outcome.ok (GoValue.int 42) :=
  (c3_int_parse_or_fatal ":" [("BAR", "42")] "BAR" "Bar" (GoValue.int 0)
      (by decide) (by decide)).1 42 (by decide)

/-- Claim C9: a field of unsupported type whose variable is absent or
empty is silently skipped — `getEnvVal` returns the old field value and
never reaches the fatal unsupported-kind branches, which sit inside the
non-empty-value test. -/
theorem c9_unsupported_skipped_when_unset (sep : String) (ev : Env) (key : String) (f : GoField)
    (ht : f.type.isSupported = false) (h : getenv ev key = "") :
    getEnvVal sep ev key f = Outcome.ok f.val :=
  getEnvVal_empty sep ev key f h

/-- Claim C9 witness: a float64 field with no variable set is left
untouched and nothing panics. -/
theorem c9_witness :
    getEnvVal ":" [] "F" ⟨"F", GoType.float64, GoValue.other⟩
      = Outcome.ok GoValue.other :=
  c9_unsupported_skipped_when_unset ":" [] "F"
    ⟨"F", GoType.float64, GoValue.other⟩ (by decide) rfl

/-- Claim C4: an exported `[]string` field whose variable is set
non-empty is assigned the raw value split literally on the active
separator, in order, with no trimming and no removal of empty runs
(`goSplit` keeps every part, `splitChar` drops nothing). -/
theorem c4_slice_split (sep : String) (ev : Env) (key fname : String) (cur : GoValue)
    (hexp : isExported fname = true) (hne : getenv ev key ≠ "") :
    getEnvVal sep ev key ⟨fname, GoType.slice GoType.string, cur⟩
      = Outcome.ok (GoValue.strs (goSplit (getenv ev key) sep)) := by
  have hlen : 0 < (getenv ev key).length := length_pos_of_ne_empty _ hne
  unfold getEnvVal setField
  simp [hlen, hexp]

/-- Claim C4 witness: with `BAZ=a:b:c` and separator ":", the field
becomes the ordered sequence ["a", "b", "c"]. -/
theorem c4_witness :
    getEnvVal ":" [("BAZ", "a:b:c")] "BAZ"
        ⟨"Baz", GoType.slice GoType.string, GoValue.strs []⟩
      = Outcome.ok (GoValue.strs ["a", "b", "c"]) :=
  (c4_slice_split ":" [("BAZ", "a:b:c")] "BAZ" "Baz" (GoValue.strs [])
      (by decide) (by decide)).trans (by decide)

/-- Claim C5: if `Host` is still empty after binding `HOST`, the
snapshot receives `runtime.GOOS`; and the separator returned by `getEnv`
is ":" unless the resolved host family equals "windows", in which case
it is ";". -/
theorem c5_host_fallback_and_separator (goos : String) (ev : Env) :
    (getenv ev "HOST" = "" → (getEnv goos ev).2.Host = goos) ∧
    (getEnv goos ev).1 = (if (getEnv goos ev).2.Host = "windows" then ";" else ":") := by
  constructor
  · intro h
    simp [getEnv, bindString, h]
  · rfl

/-- Claim C5 witness: with no `HOST` variable and `runtime.GOOS` equal
to "windows", the resolved host is "windows" and the separator is
";". -/
theorem c5_witness :
    (getEnv "windows" []).2.Host = "windows" ∧ (getEnv "windows" []).1 = ";" := by
  refine ⟨(c5_host_fallback_and_separator "windows" []).1 rfl, ?_⟩
  rw [(c5_host_fallback_and_separator "windows" []).2]
  decide

/-- Claim C6: binding a record that contains a field of unsupported type
whose matching variable is set non-empty always panics: the binder
refuses every kind outside string, int and []string. -/
theorem c6_unsupported_type_fatal (sep : String) (ev : Env) (fs : List GoField)
    (h : ∃ f ∈ fs, f.type.isSupported = false ∧ getenv ev (goToUpper f.name) ≠ "") :
    ∃ msg, ReadEnvVars sep ev fs = Outcome.panic msg := by
  induction fs with
  | nil => simp at h
  | cons f fs ih =>
      rcases h with ⟨g, hg, hsup, hne⟩
      rcases List.mem_cons.mp hg with hgf | hgs
      · subst hgf
        obtain ⟨msg, hm⟩ :=
          getEnvVal_unsupported_fatal sep ev (goToUpper g.name) g hsup hne
        exact ⟨msg, by simp [ReadEnvVars, hm]⟩
      · cases hcall : getEnvVal sep ev (goToUpper f.name) f with
        | panic m => exact ⟨m, by simp [ReadEnvVars, hcall]⟩
        | ok v =>
            obtain ⟨msg, hm⟩ := ih ⟨g, hgs, hsup, hne⟩
            exact ⟨msg, by simp [ReadEnvVars, hcall, hm]⟩

/-- Claim C6 witness: a record with a float64 field `F` and `F=1.5` set
panics. -/
theorem c6_witness :
    ∃ msg, ReadEnvVars ":" [("F", "1.5")]
        [⟨"F", GoType.float64, GoValue.other⟩] = Outcome.panic msg :=
  c6_unsupported_type_fatal ":" [("F", "1.5")] _
    ⟨⟨"F", GoType.float64, GoValue.other⟩, by decide⟩

/-- Claim C7: if `User` is still empty after binding `USER`, a secondary
lookup is done under `USERNAME`; and when both are absent or empty,
`User()` is the empty string — there is no OS-API fallback in
`getEnv`. -/
theorem c7_username_fallback (goos : String) (ev : Env) :
    (getenv ev "USER" = "" → (getEnv goos ev).2.User = getenv ev "USERNAME") ∧
    (getenv ev "USER" = "" → getenv ev "USERNAME" = "" → User (getEnv goos ev).2 = "") := by
  constructor
  · intro h
    by_cases hn : getenv ev "USERNAME" = ""
    · simp [getEnv, bindString, h, hn]
    · have hlen : 0 < (getenv ev "USERNAME").length := length_pos_of_ne_empty _ hn
      simp [getEnv, bindString, h, hlen]
  · intro h1 h2
    simp [User, getEnv, bindString, h1, h2]

/-- Claim C7 witness: with an empty environment, `User()` of the
snapshot is the empty string. -/
theorem c7_witness : User (getEnv "linux" []).2 = "" :=
  (c7_username_fallback "linux" []).2 rfl rfl

/-- Claim C8: `IsLinux()` and `IsWindows()` are never both true; each is
true exactly when `Host()` is "linux" respectively "windows", and both
are false for any other resolved host family. -/
theorem c8_islinux_iswindows_exclusive (e : EnvRec) :
    ¬(IsLinux e = true ∧ IsWindows e = true) ∧
    (Host e = "linux" → IsLinux e = true ∧ IsWindows e = false) ∧
    (Host e = "windows" → IsWindows e = true ∧ IsLinux e = false) ∧
    (Host e ≠ "linux" → Host e ≠ "windows" → IsLinux e = false ∧ IsWindows e = false) := by
  unfold IsLinux IsWindows Host
  refine ⟨?_, ?_, ?_, ?_⟩
  · rintro ⟨h1, h2⟩
    rw [beq_iff_eq] at h1 h2
    rw [h1] at h2
    exact absurd h2 (by decide)
  · intro h
    rw [h]
    decide
  · intro h
    rw [h]
    decide
  · intro h1 h2
    simp [beq_eq_false_iff_ne, h1, h2]

/-- Claim C8 witness: on a snapshot with host "linux", `IsLinux()` is
true and `IsWindows()` is false. -/
theorem c8_witness :
    IsLinux ⟨"linux", "u"⟩ = true ∧ IsWindows ⟨"linux", "u"⟩ = false :=
  (c8_islinux_iswindows_exclusive ⟨"linux", "u"⟩).2.1 rfl

/-- Claim C10: only the exact platform `int` kind is converted; a field
of any other integer width or signedness whose variable is set non-empty
hits the `default` branch and panics with the unsupported-kind message
instead of performing a numeric conversion. -/
theorem c10_other_int_kinds_fatal (sep : String) (ev : Env) (key fname : String)
    (t : GoType) (cur : GoValue)
    (ht : t = GoType.int8 ∨ t = GoType.int16 ∨ t = GoType.int32 ∨ t = GoType.int64 ∨
          t = GoType.uint ∨ t = GoType.uint8 ∨ t = GoType.uint16 ∨ t = GoType.uint32 ∨
          t = GoType.uint64)
    (hne : getenv ev key ≠ "") :
    getEnvVal sep ev key ⟨fname, t, cur⟩
      = Outcome.panic "ReadEnvVars: Unexpected kind" := by
  have hlen : 0 < (getenv ev key).length := length_pos_of_ne_empty _ hne
  rcases ht with rfl | rfl | rfl | rfl | rfl | rfl | rfl | rfl | rfl <;>
    · unfold getEnvVal
      simp [hlen]

/-- Claim C10 witness: an `int8` field with `N=5` set panics with the
unsupported-kind message even though "5" would parse as an integer. -/
theorem c10_witness :
    getEnvVal ":" [("N", "5")] "N" ⟨"N", GoType.int8, GoValue.int 0⟩
      = Outcome.panic "ReadEnvVars: Unexpected kind" :=
  c10_other_int_kinds_fatal ":" [("N", "5")] "N" "N" GoType.int8 (GoValue.int 0)
    (Or.inl rfl) (by decide)

end EnvGo
